import Mathlib

/-!
Verification of the order-to-delivery pipeline in `src/app.py`.

The Python module keeps two process-global mutable values, the product
catalog `PRODUCTS` and the replay-protection set `PROCESSED_ORDERS`.  The
shallow embedding makes this state explicit: the catalog is an association
list from product id to product record (Python dict indexing is modelled by
first-match lookup returning `Option`, with `none` standing for the
uncontrolled `KeyError`), the processed set is a list of order ids, and the
Streamlit submit handler becomes the state-transition function
`run_pipeline`.  Python integers are embedded as `Int`.
-/

namespace BizTab

/-- A catalog entry: the value part of the `PRODUCTS` dict in `app.py`. -/
structure Product where
  name : String
  price : Int
  stock : Int
  image : String
  description : String
deriving DecidableEq, Repr

/-- The order dict built in the submit handler of `app.py`.  The
`delivery_zone` field is optional because `validate_order` reads it with
`order.get("delivery_zone", "IN")`. -/
structure Order where
  order_id : String
  product_id : String
  quantity : Int
  total_amount : Int
  delivery_zone : Option String := some "IN"
deriving DecidableEq, Repr

/-- The catalog: association list from product id to product,
modelling the `PRODUCTS` dict (whose keys are unique). -/
abbrev Catalog := List (String × Product)

/-- `MAX_ORDER_AMOUNT = 5000`, the risk mitigation threshold. -/
def MAX_ORDER_AMOUNT : Int := 5000

/-- `MIN_ORDER_QUANTITY = 1`, the minimum order quantity. -/
def MIN_ORDER_QUANTITY : Int := 1

/-- `SERVICEABLE_ZONES = ["IN"]`. -/
def SERVICEABLE_ZONES : List String := ["IN"]

/-- Dict lookup `PRODUCTS[pid]`: first entry whose key matches, `none`
models the `KeyError` raised on a missing key. -/
def lookupProduct (pid : String) : Catalog → Option Product
  | [] => none
  | (k, p) :: rest => if k = pid then some p else lookupProduct pid rest

/-- The mutation `PRODUCTS[pid]["stock"] -= q`: decrement the stock of the
entry with the given key (the first match; dict keys are unique). -/
def updateStock (pid : String) (q : Int) : Catalog → Catalog
  | [] => []
  | (k, p) :: rest =>
    if k = pid then (k, { p with stock := p.stock - q }) :: rest
    else (k, p) :: updateStock pid q rest

/-- `validate_order` from `app.py`, with the global `PROCESSED_ORDERS`
passed explicitly.  Python's `if not order["order_id"]` is the empty-string
test. -/
def validate_order (processed : List String) (order : Order) : Bool × String :=
  if order.order_id = "" then (false, "Invalid Order ID")
  else if order.order_id ∈ processed then (false, "Duplicate order detected")
  else if order.quantity < MIN_ORDER_QUANTITY then
    (false, "Order quantity below minimum threshold")
  else if order.total_amount > MAX_ORDER_AMOUNT then
    (false, "Order amount exceeds risk threshold")
  else if (order.delivery_zone.getD "IN") ∉ SERVICEABLE_ZONES then
    (false, "Delivery address not serviceable")
  else (true, "Order validated successfully")

/-- `check_inventory` from `app.py`.  The unguarded dict access
`PRODUCTS[order["product_id"]]` surfaces as the `none` branch. -/
def check_inventory (cat : Catalog) (order : Order) : Option (Bool × String) :=
  match lookupProduct order.product_id cat with
  | none => none
  | some product =>
    if product.stock ≥ order.quantity then
      some (true, "Stock available (" ++ toString product.stock ++ " units)")
    else some (false, "Out of stock")

/-- `process_payment` from `app.py`: the mock payment gateway. -/
def process_payment (total_amount : Int) : Bool × String :=
  if total_amount ≤ MAX_ORDER_AMOUNT then (true, "Payment successful")
  else (false, "Payment failed due to risk threshold")

/-- `fulfill_order` from `app.py`: `PRODUCTS[pid]["stock"] -= q` followed by
a fixed success message.  `none` models the `KeyError` on a missing key. -/
def fulfill_order (cat : Catalog) (order : Order) : Option (Catalog × String) :=
  match lookupProduct order.product_id cat with
  | none => none
  | some _ =>
    some (updateStock order.product_id order.quantity cat, "Order packed successfully")

/-- `confirm_delivery` from `app.py`. -/
def confirm_delivery : String := "Order delivered successfully"

/-- One hexadecimal digit character, lowercase, as produced by Python's
`uuid.uuid4().hex`. -/
def hexDigit (n : Nat) : Char :=
  if n < 10 then Char.ofNat (48 + n) else Char.ofNat (87 + n)

/-- The 32 lowercase hex characters of `uuid.uuid4().hex`, for a random
128-bit value `n`. -/
def uuidHexChars (n : Nat) : List Char :=
  (List.range 32).map (fun i => hexDigit (n / 16 ^ (31 - i) % 16))

/-- `initiate_shipment` from `app.py`:
`f"TRK-{uuid.uuid4().hex[:8].upper()}"`, with the random value made an
explicit argument. -/
def initiate_shipment (n : Nat) : String :=
  "TRK-" ++ String.mk (((uuidHexChars n).take 8).map Char.toUpper)

/-- The process-global mutable state of `app.py`: the catalog and the
processed-orders set. -/
structure SysState where
  products : Catalog
  processed : List String
deriving DecidableEq

/-- `fulfill_order` seen at the level of the whole global state: it only
touches `PRODUCTS`. -/
def fulfill_orderS (s : SysState) (order : Order) : Option (SysState × String) :=
  match fulfill_order s.products order with
  | none => none
  | some (cat, msg) => some ({ s with products := cat }, msg)

/-- Outcome of one submit-handler run: a stage reported failure and
`st.stop()` ran, an unhandled `KeyError` escaped, or the order was
delivered. -/
inductive Outcome where
  | halted (msg : String)
  | crashed
  | delivered
deriving DecidableEq, Repr

/-- The submit-handler in `app.py` (lines 194-239): validate, insert the
order id into `PROCESSED_ORDERS`, check inventory, process payment,
fulfill; each failing stage stops the run. -/
def run_pipeline (s : SysState) (order : Order) : SysState × Outcome :=
  let v := validate_order s.processed order
  if v.1 = false then (s, .halted v.2)
  else
    let s1 : SysState := { s with processed := order.order_id :: s.processed }
    match check_inventory s1.products order with
    | none => (s1, .crashed)
    | some inv =>
      if inv.1 = false then (s1, .halted inv.2)
      else
        let pay := process_payment order.total_amount
        if pay.1 = false then (s1, .halted pay.2)
        else
          match fulfill_orderS s1 order with
          | none => (s1, .crashed)
          | some (s2, _) => (s2, .delivered)

/-- Catalog entry `P001` of `app.py`. -/
def wirelessMouse : Product :=
  { name := "Wireless Mouse", price := 799, stock := 15,
    image := "https://cdn-icons-png.flaticon.com/512/2919/2919592.png",
    description := "Ergonomic wireless mouse with adjustable DPI and long battery life." }

/-- Catalog entry `P002` of `app.py`. -/
def mechanicalKeyboard : Product :=
  { name := "Mechanical Keyboard", price := 2499, stock := 5,
    image := "https://cdn-icons-png.flaticon.com/512/2920/2920244.png",
    description := "Compact mechanical keyboard with tactile switches and RGB backlight." }

/-- Catalog entry `P003` of `app.py`; note `stock = 0`. -/
def usbCCharger : Product :=
  { name := "USB-C Charger", price := 999, stock := 0,
    image := "https://cdn-icons-png.flaticon.com/512/2910/2910768.png",
    description := "Fast charging USB-C charger compatible with phones and laptops." }

/-- Catalog entry `P004` of `app.py`; note `price = 5999 > 5000`. -/
def noiseCancellingHeadphones : Product :=
  { name := "Noise Cancelling Headphones", price := 5999, stock := 8,
    image := "https://cdn-icons-png.flaticon.com/512/2921/2921822.png",
    description := "Over-ear headphones with active noise cancellation and rich sound." }

/-- Catalog entry `P005` of `app.py`. -/
def laptopStand : Product :=
  { name := "Laptop Stand", price := 1299, stock := 20,
    image := "https://cdn-icons-png.flaticon.com/512/2920/2920329.png",
    description := "Adjustable aluminum laptop stand for better posture and airflow." }

/-- The `PRODUCTS` catalog constant of `app.py`. -/
def PRODUCTS : Catalog :=
  [("P001", wirelessMouse), ("P002", mechanicalKeyboard), ("P003", usbCCharger),
   ("P004", noiseCancellingHeadphones), ("P005", laptopStand)]

/-- The state at process start: full catalog, empty `PROCESSED_ORDERS`. -/
def initState : SysState := { products := PRODUCTS, processed := [] }

/-- States reachable from process start by a sequence of submit-handler
runs. -/
inductive Reachable : SysState → Prop where
  | init : Reachable initState
  | step (s : SysState) (o : Order) : Reachable s → Reachable (run_pipeline s o).1

/-- States reachable from a given state by further submit-handler runs. -/
inductive ReachFrom : SysState → SysState → Prop where
  | refl (s : SysState) : ReachFrom s s
  | step (s t : SysState) (o : Order) : ReachFrom s t → ReachFrom s (run_pipeline t o).1

/-- The end-to-end demo order of the spec: Wireless Mouse (799) times 2. -/
def mouseOrder : Order :=
  { order_id := "ORD-A1", product_id := "P001", quantity := 2, total_amount := 1598 }

/-- An over-the-ceiling order whose delivery zone is not serviceable,
showing the amount check fires before the zone check. -/
def headphonesOrder : Order :=
  { order_id := "ORD-B1", product_id := "P004", quantity := 1, total_amount := 5999,
    delivery_zone := some "US" }

/-- A below-minimum-quantity order with a huge amount and a bad zone,
showing the quantity check fires before both later checks. -/
def zeroQtyOrder : Order :=
  { order_id := "ORD-B2", product_id := "P002", quantity := 0, total_amount := 999999,
    delivery_zone := some "ZZ" }

/-- A unit-quantity order for the out-of-stock charger. -/
def chargerOrder : Order :=
  { order_id := "ORD-B3", product_id := "P003", quantity := 1, total_amount := 999 }

/-- An order for a product id absent from the catalog. -/
def missingProductOrder : Order :=
  { order_id := "ORD-B4", product_id := "P999", quantity := 1, total_amount := 100 }

/-- An over-the-ceiling order with an empty order id: the id check fires
first. -/
def emptyIdHighAmountOrder : Order :=
  { order_id := "", product_id := "P004", quantity := 1, total_amount := 6000 }

/-- A zero-quantity order with an empty order id: the id check fires
first. -/
def emptyIdZeroQtyOrder : Order :=
  { order_id := "", product_id := "P001", quantity := 0, total_amount := 799 }

/-- A zero-quantity request against the zero-stock charger: `0 >= 0`
makes `check_inventory` report availability. -/
def zeroQtyChargerOrder : Order :=
  { order_id := "ORD-B5", product_id := "P003", quantity := 0, total_amount := 0 }

/-! ### Helper lemmas -/

/-- What a successful validation guarantees about the order. -/
lemma validate_order_spec (processed : List String) (o : Order)
    (h : (validate_order processed o).1 = true) :
    o.order_id ≠ "" ∧ o.order_id ∉ processed ∧ MIN_ORDER_QUANTITY ≤ o.quantity ∧
      o.total_amount ≤ MAX_ORDER_AMOUNT := by
  unfold validate_order at h
  split_ifs at h with h1 h2 h3 h4 h5
  exact ⟨h1, h2, not_lt.mp h3, not_lt.mp h4⟩

/-- A non-empty order id already in the processed set is rejected as a
duplicate. -/
lemma validate_order_duplicate (processed : List String) (o : Order)
    (h1 : o.order_id ≠ "") (h2 : o.order_id ∈ processed) :
    validate_order processed o = (false, "Duplicate order detected") := by
  unfold validate_order
  rw [if_neg h1, if_pos h2]

/-- `lookupProduct` misses exactly when no entry has the key. -/
lemma lookupProduct_eq_none_iff (pid : String) (cat : Catalog) :
    lookupProduct pid cat = none ↔ ∀ e ∈ cat, e.1 ≠ pid := by
  induction cat with
  | nil => simp [lookupProduct]
  | cons e rest ih =>
    obtain ⟨k, p⟩ := e
    by_cases hk : k = pid
    · subst hk
      simp [lookupProduct]
    · simp [lookupProduct, hk, ih]

/-- Updating the stock of the looked-up key updates exactly the entry the
lookup returns. -/
lemma lookupProduct_updateStock_self (pid : String) (q : Int) (cat : Catalog) (p : Product)
    (h : lookupProduct pid cat = some p) :
    lookupProduct pid (updateStock pid q cat) = some { p with stock := p.stock - q } := by
  induction cat with
  | nil => simp [lookupProduct] at h
  | cons e rest ih =>
    obtain ⟨k, p'⟩ := e
    by_cases hk : k = pid
    · subst hk
      rw [lookupProduct, if_pos rfl] at h
      cases h
      rw [updateStock, if_pos rfl, lookupProduct, if_pos rfl]
    · rw [lookupProduct, if_neg hk] at h
      rw [updateStock, if_neg hk, lookupProduct, if_neg hk]
      exact ih h

/-- An entry of the updated catalog is either an entry of the original
catalog or the decremented looked-up entry. -/
lemma mem_updateStock (pid : String) (q : Int) (cat : Catalog) (e : String × Product)
    (h : e ∈ updateStock pid q cat) :
    e ∈ cat ∨ ∃ p, lookupProduct pid cat = some p ∧
      e = (pid, { p with stock := p.stock - q }) := by
  induction cat with
  | nil => simp [updateStock] at h
  | cons e' rest ih =>
    obtain ⟨k, p'⟩ := e'
    by_cases hk : k = pid
    · subst hk
      rw [updateStock, if_pos rfl] at h
      rcases List.mem_cons.mp h with h | h
      · exact Or.inr ⟨p', by rw [lookupProduct, if_pos rfl], h⟩
      · exact Or.inl (List.mem_cons_of_mem _ h)
    · rw [updateStock, if_neg hk] at h
      rcases List.mem_cons.mp h with h | h
      · exact Or.inl (h ▸ List.mem_cons_self _ _)
      · rcases ih h with h | ⟨p, hp, he⟩
        · exact Or.inl (List.mem_cons_of_mem _ h)
        · exact Or.inr ⟨p, by rw [lookupProduct, if_neg hk]; exact hp, he⟩

/-- The catalog around a successful lookup decomposes into a prefix
without the key, the found entry, and a suffix; `updateStock` rewrites
only the found entry. -/
lemma lookupProduct_updateStock_decomp (pid : String) (q : Int) (cat : Catalog) (p : Product)
    (h : lookupProduct pid cat = some p) :
    ∃ l1 l2, cat = l1 ++ (pid, p) :: l2 ∧ (∀ e ∈ l1, e.1 ≠ pid) ∧
      updateStock pid q cat = l1 ++ (pid, { p with stock := p.stock - q }) :: l2 := by
  induction cat with
  | nil => simp [lookupProduct] at h
  | cons e rest ih =>
    obtain ⟨k, p'⟩ := e
    by_cases hk : k = pid
    · subst hk
      rw [lookupProduct, if_pos rfl] at h
      cases h
      exact ⟨[], rest, rfl, by simp, by rw [updateStock, if_pos rfl]; rfl⟩
    · rw [lookupProduct, if_neg hk] at h
      obtain ⟨l1, l2, hcat, hl1, hupd⟩ := ih h
      refine ⟨(k, p') :: l1, l2, by rw [hcat]; rfl, ?_, ?_⟩
      · intro e he
        rcases List.mem_cons.mp he with he | he
        · rw [he]; exact hk
        · exact hl1 e he
      · rw [updateStock, if_neg hk, hupd]
        rfl

/-- A true inventory check means the product was found with enough
stock. -/
lemma check_inventory_true (cat : Catalog) (o : Order) (msg : String)
    (h : check_inventory cat o = some (true, msg)) :
    ∃ p, lookupProduct o.product_id cat = some p ∧ o.quantity ≤ p.stock := by
  unfold check_inventory at h
  split at h
  · simp at h
  · rename_i p hl
    split_ifs at h with hs
    · exact ⟨p, hl, hs⟩
    · simp at h

/-- `fulfill_orderS` on a present product: catalog updated, processed set
untouched, fixed message. -/
lemma fulfill_orderS_some (s : SysState) (o : Order) (p : Product)
    (hl : lookupProduct o.product_id s.products = some p) :
    fulfill_orderS s o =
      some ({ s with products := updateStock o.product_id o.quantity s.products },
        "Order packed successfully") := by
  simp [fulfill_orderS, fulfill_order, hl]

/-- One submit-handler run either leaves the state unchanged (validation
failed) or pushes the order id onto the processed set and changes the
catalog at most by a stock decrement that the inventory check guarded. -/
lemma run_pipeline_state (s : SysState) (o : Order) :
    (run_pipeline s o).1 = s ∨
    ((validate_order s.processed o).1 = true ∧
     (run_pipeline s o).1.processed = o.order_id :: s.processed ∧
     ((run_pipeline s o).1.products = s.products ∨
      ∃ p, lookupProduct o.product_id s.products = some p ∧ o.quantity ≤ p.stock ∧
        (run_pipeline s o).1.products = updateStock o.product_id o.quantity s.products)) := by
  cases hv : (validate_order s.processed o).1 with
  | false => exact Or.inl (by simp [run_pipeline, hv])
  | true =>
    right
    refine ⟨rfl, ?_⟩
    cases hci : check_inventory s.products o with
    | none => exact ⟨by simp [run_pipeline, hv, hci], Or.inl (by simp [run_pipeline, hv, hci])⟩
    | some inv =>
      obtain ⟨b, msg⟩ := inv
      cases b with
      | false =>
        exact ⟨by simp [run_pipeline, hv, hci], Or.inl (by simp [run_pipeline, hv, hci])⟩
      | true =>
        obtain ⟨p, hl, hq⟩ := check_inventory_true s.products o msg hci
        cases hp : (process_payment o.total_amount).1 with
        | false =>
          exact ⟨by simp [run_pipeline, hv, hci, hp], Or.inl (by simp [run_pipeline, hv, hci, hp])⟩
        | true =>
          refine ⟨?_, Or.inr ⟨p, hl, hq, ?_⟩⟩ <;>
            simp [run_pipeline, hv, hci, hp, fulfill_orderS, fulfill_order, hl]

/-- A processed order id survives any further submit-handler run. -/
lemma run_pipeline_processed_mono (s : SysState) (o : Order) (x : String)
    (hx : x ∈ s.processed) : x ∈ (run_pipeline s o).1.processed := by
  rcases run_pipeline_state s o with h | ⟨-, h, -⟩
  · rw [h]; exact hx
  · rw [h]; exact List.mem_cons_of_mem _ hx

/-- A processed order id survives any sequence of submit-handler runs. -/
lemma reachFrom_processed_mono (s t : SysState) (hr : ReachFrom s t) (x : String)
    (hx : x ∈ s.processed) : x ∈ t.processed := by
  induction hr with
  | refl => exact hx
  | step t' o _ ih => exact run_pipeline_processed_mono t' o x ih

/-- Reachability composes with further runs. -/
lemma reachable_of_reachFrom (s t : SysState) (hs : Reachable s) (hr : ReachFrom s t) :
    Reachable t := by
  induction hr with
  | refl => exact hs
  | step t' o _ ih => exact Reachable.step t' o ih

/-- The empty string never enters the processed set: only validated
orders are recorded and validation rejects an empty order id. -/
lemma reachable_empty_not_processed (s : SysState) (hs : Reachable s) :
    "" ∉ s.processed := by
  induction hs with
  | init => simp [initState]
  | step t o _ ih =>
    rcases run_pipeline_state t o with h | ⟨hv, h, -⟩
    · rw [h]; exact ih
    · rw [h]
      intro hmem
      rcases List.mem_cons.mp hmem with hmem | hmem

      · exact (validate_order_spec t.processed o hv).1 hmem.symm
      · exact ih hmem

/-- Every product stock in a reachable state is non-negative. -/
lemma reachable_stock_nonneg (s : SysState) (hs : Reachable s) :
    ∀ e ∈ s.products, 0 ≤ e.2.stock := by
  induction hs with
  | init => decide
  | step t o _ ih =>
    rcases run_pipeline_state t o with h | ⟨-, -, h | ⟨p, hl, hq, h⟩⟩
    · rw [h]; exact ih
    · rw [h]; exact ih
    · rw [h]
      intro e he
      rcases mem_updateStock o.product_id o.quantity t.products e he with he | ⟨p', hl', he⟩
      · exact ih e he
      · rw [hl] at hl'
        cases hl'
        have := ih (o.product_id, p) (by
          obtain ⟨l1, l2, hcat, -, -⟩ :=
            lookupProduct_updateStock_decomp o.product_id o.quantity t.products p hl
          rw [hcat]
          exact List.mem_append_right _ (List.mem_cons_self _ _))
        rw [he]
        simp only
        omega

/-- A successful `fulfill_order` is exactly a stock decrement with the
fixed message. -/
lemma fulfill_order_some (cat : Catalog) (o : Order) (cat' : Catalog) (msg : String)
    (h : fulfill_order cat o = some (cat', msg)) :
    ∃ p, lookupProduct o.product_id cat = some p ∧
      cat' = updateStock o.product_id o.quantity cat ∧ msg = "Order packed successfully" := by
  unfold fulfill_order at h
  split at h
  · simp at h
  · rename_i p hl
    rw [Option.some.injEq, Prod.mk.injEq] at h
    exact ⟨p, hl, h.1.symm, h.2.symm⟩

/-- A hexadecimal digit, uppercased, is an uppercase letter or a decimal
digit. -/
lemma hexDigit_toUpper_alnum : ∀ d < 16,
    ('A' ≤ (hexDigit d).toUpper ∧ (hexDigit d).toUpper ≤ 'Z') ∨
    ('0' ≤ (hexDigit d).toUpper ∧ (hexDigit d).toUpper ≤ '9') := by decide

/-! ### Claims -/

/-- Claim C1, counterexample: the risk-threshold rejection is not
returned for every order with `total_amount > 5000`, because the
order-id check runs first: an over-the-ceiling order with an empty
order id is rejected as "Invalid Order ID". -/
theorem amount_check_not_first :
    emptyIdHighAmountOrder.total_amount > MAX_ORDER_AMOUNT ∧
    validate_order [] emptyIdHighAmountOrder ≠
      (false, "Order amount exceeds risk threshold") ∧
    validate_order [] emptyIdHighAmountOrder = (false, "Invalid Order ID") := by
  decide

/-- Claim C1, amended: for every order that passes the earlier checks
(non-empty order id, not yet processed, quantity at least the minimum),
`total_amount > 5000` forces the rejection
`(False, "Order amount exceeds risk threshold")`, regardless of the
remaining fields (in particular the delivery zone). -/
theorem validate_order_risk_threshold (processed : List String) (o : Order)
    (h1 : o.order_id ≠ "") (h2 : o.order_id ∉ processed)
    (h3 : MIN_ORDER_QUANTITY ≤ o.quantity) (h4 : o.total_amount > MAX_ORDER_AMOUNT) :
    validate_order processed o = (false, "Order amount exceeds risk threshold") := by
  unfold validate_order
  rw [if_neg h1, if_neg h2, if_neg (not_lt.mpr h3), if_pos h4]

/-- Claim C1, witness: an order above the ceiling with an out-of-zone
address is still rejected for the amount, not the zone. -/
theorem validate_order_risk_threshold_witness :
    validate_order [] headphonesOrder = (false, "Order amount exceeds risk threshold") :=
  validate_order_risk_threshold [] headphonesOrder (by decide) (by decide) (by decide)
    (by decide)

/-- Claim C2, counterexample: the below-minimum-quantity rejection is not
returned for every order with `quantity < 1`, because the order-id check
runs first: a zero-quantity order with an empty order id is rejected as
"Invalid Order ID". -/
theorem quantity_check_not_first :
    emptyIdZeroQtyOrder.quantity < MIN_ORDER_QUANTITY ∧
    validate_order [] emptyIdZeroQtyOrder ≠
      (false, "Order quantity below minimum threshold") ∧
    validate_order [] emptyIdZeroQtyOrder = (false, "Invalid Order ID") := by
  decide

/-- Claim C2, amended: for every order that passes the earlier checks
(non-empty order id, not yet processed), `quantity < 1` forces the
rejection `(False, "Order quantity below minimum threshold")`, regardless
of the remaining fields (total amount and delivery zone). -/
theorem validate_order_moq_reject (processed : List String) (o : Order)
    (h1 : o.order_id ≠ "") (h2 : o.order_id ∉ processed)
    (h3 : o.quantity < MIN_ORDER_QUANTITY) :
    validate_order processed o = (false, "Order quantity below minimum threshold") := by
  unfold validate_order
  rw [if_neg h1, if_neg h2, if_pos h3]

/-- Claim C2, witness: a zero-quantity order with a huge amount and a bad
zone is rejected for the quantity. -/
theorem validate_order_moq_reject_witness :
    validate_order [] zeroQtyOrder = (false, "Order quantity below minimum threshold") :=
  validate_order_moq_reject [] zeroQtyOrder (by decide) (by decide) (by decide)

/-- Claim C3, counterexample: for the zero-stock charger `P003` a request
of quantity `0` satisfies `stock >= quantity`, so `check_inventory`
reports availability instead of `(False, "Out of stock")`. -/
theorem zero_stock_zero_quantity_counterexample :
    usbCCharger.stock = 0 ∧ lookupProduct "P003" PRODUCTS = some usbCCharger ∧
    zeroQtyChargerOrder.product_id = "P003" ∧
    check_inventory PRODUCTS zeroQtyChargerOrder =
      some (true, "Stock available (0 units)") ∧
    check_inventory PRODUCTS zeroQtyChargerOrder ≠ some (false, "Out of stock") := by
  decide

/-- Claim C3, amended: for a catalog product, `check_inventory` returns
availability with a message reporting the current stock exactly when the
stock covers the requested quantity, and `(False, "Out of stock")`
otherwise; in particular a product with stock `0` is reported out of
stock for every requested quantity of at least `1`. -/
theorem check_inventory_characterization (cat : Catalog) (o : Order) (p : Product)
    (h : lookupProduct o.product_id cat = some p) :
    (p.stock = 0 → MIN_ORDER_QUANTITY ≤ o.quantity →
      check_inventory cat o = some (false, "Out of stock")) ∧
    check_inventory cat o =
      some (if p.stock ≥ o.quantity then
              (true, "Stock available (" ++ toString p.stock ++ " units)")
            else (false, "Out of stock")) := by
  have hch : check_inventory cat o =
      some (if p.stock ≥ o.quantity then
              (true, "Stock available (" ++ toString p.stock ++ " units)")
            else (false, "Out of stock")) := by
    by_cases hs : p.stock ≥ o.quantity
    · simp [check_inventory, h, hs]
    · simp [check_inventory, h, hs]
  refine ⟨?_, hch⟩
  intro h0 hq
  rw [hch, if_neg (by rw [h0]; unfold MIN_ORDER_QUANTITY at hq; omega)]

/-- Claim C3, witness: one unit of the zero-stock charger is reported out
of stock. -/
theorem check_inventory_characterization_witness :
    check_inventory PRODUCTS chargerOrder = some (false, "Out of stock") :=
  (check_inventory_characterization PRODUCTS chargerOrder usbCCharger (by decide)).1
    (by decide) (by decide)

/-- Claim C4: the mock payment approves exactly the amounts up to the
validation ceiling, so payment failure is unreachable after a successful
validation: any order the validator accepted has
`total_amount ≤ MAX_ORDER_AMOUNT` and is approved by `process_payment`. -/
theorem process_payment_unreachable_failure :
    (∀ t : Int, (process_payment t).1 = true ↔ t ≤ MAX_ORDER_AMOUNT) ∧
    ∀ (processed : List String) (o : Order), (validate_order processed o).1 = true →
      process_payment o.total_amount = (true, "Payment successful") := by
  constructor
  · intro t
    unfold process_payment
    split_ifs with h
    · simpa using h
    · simpa using h
  · intro processed o hv
    unfold process_payment
    rw [if_pos (validate_order_spec processed o hv).2.2.2]

/-- Claim C4, witness: the validated demo order is approved. -/
theorem process_payment_unreachable_failure_witness :
    process_payment mouseOrder.total_amount = (true, "Payment successful") :=
  process_payment_unreachable_failure.2 [] mouseOrder (by decide)

/-- Claim C5: in any reachable state, an order id in the processed set
stays in the set across any further runs, and re-submitting any order
carrying that id is always rejected with
`(False, "Duplicate order detected")`. -/
theorem duplicate_order_always_rejected (s : SysState) (hs : Reachable s) (o : Order)
    (h : o.order_id ∈ s.processed) (s' : SysState) (hr : ReachFrom s s') :
    o.order_id ∈ s'.processed ∧
    ∀ o2 : Order, o2.order_id = o.order_id →
      validate_order s'.processed o2 = (false, "Duplicate order detected") := by
  have hmem : o.order_id ∈ s'.processed := reachFrom_processed_mono s s' hr o.order_id h
  have hne : o.order_id ≠ "" := fun he => reachable_empty_not_processed s hs (he ▸ h)
  exact ⟨hmem, fun o2 h2 =>
    validate_order_duplicate s'.processed o2 (by rw [h2]; exact hne) (by rw [h2]; exact hmem)⟩

/-- Claim C5, witness: after the demo order is processed once, submitting
it again is rejected as a duplicate. -/
theorem duplicate_order_always_rejected_witness :
    "ORD-A1" ∈ (run_pipeline initState mouseOrder).1.processed ∧
    validate_order (run_pipeline initState mouseOrder).1.processed mouseOrder =
      (false, "Duplicate order detected") := by
  have h := duplicate_order_always_rejected (run_pipeline initState mouseOrder).1
    (Reachable.step initState mouseOrder Reachable.init) mouseOrder (by decide)
    (run_pipeline initState mouseOrder).1 (ReachFrom.refl _)
  exact ⟨h.1, h.2 mouseOrder rfl⟩

/-- Claim C6: in every state reachable by the single-threaded pipeline
from the initial catalog, every product's stock is non-negative. -/
theorem stock_never_negative (s : SysState) (hs : Reachable s) :
    ∀ e ∈ s.products, 0 ≤ e.2.stock :=
  reachable_stock_nonneg s hs

/-- Claim C6, witness: after fulfilling the demo order the decremented
mouse stock is still non-negative. -/
theorem stock_never_negative_witness :
    0 ≤ ({ wirelessMouse with stock := wirelessMouse.stock - mouseOrder.quantity }
      : Product).stock :=
  stock_never_negative (run_pipeline initState mouseOrder).1
    (Reachable.step initState mouseOrder Reachable.init)
    ("P001", { wirelessMouse with stock := wirelessMouse.stock - mouseOrder.quantity })
    (by decide)

/-- Claim C7: for an order whose product is in the catalog,
`fulfill_order` decrements that product's stock by exactly the order
quantity and returns the fixed success message, and calling it a second
time for the same order decrements a second time. -/
theorem fulfill_order_decrements (cat : Catalog) (o : Order) (p : Product)
    (h : lookupProduct o.product_id cat = some p) :
    ∃ cat1, fulfill_order cat o = some (cat1, "Order packed successfully") ∧
      lookupProduct o.product_id cat1 = some { p with stock := p.stock - o.quantity } ∧
      ∃ cat2, fulfill_order cat1 o = some (cat2, "Order packed successfully") ∧
        lookupProduct o.product_id cat2 =
          some { p with stock := p.stock - o.quantity - o.quantity } := by
  have h1 : fulfill_order cat o =
      some (updateStock o.product_id o.quantity cat, "Order packed successfully") := by
    simp [fulfill_order, h]
  have h2 := lookupProduct_updateStock_self o.product_id o.quantity cat p h
  have h3 : fulfill_order (updateStock o.product_id o.quantity cat) o =
      some (updateStock o.product_id o.quantity (updateStock o.product_id o.quantity cat),
        "Order packed successfully") := by
    simp [fulfill_order, h2]
  have h4 := lookupProduct_updateStock_self o.product_id o.quantity _ _ h2
  exact ⟨_, h1, h2, _, h3, h4⟩

/-- Claim C7, witness: fulfilling the demo order once takes the mouse
stock from 15 to 13. -/
theorem fulfill_order_decrements_witness :
    ∃ cat1, fulfill_order PRODUCTS mouseOrder = some (cat1, "Order packed successfully") ∧
      lookupProduct mouseOrder.product_id cat1 =
        some { wirelessMouse with stock := wirelessMouse.stock - mouseOrder.quantity } := by
  obtain ⟨cat1, h1, h2, -⟩ :=
    fulfill_order_decrements PRODUCTS mouseOrder wirelessMouse (by decide)
  exact ⟨cat1, h1, h2⟩

/-- Claim C8: the product lookup in `check_inventory` is unguarded: when
the order's product id is not a key of the catalog the stage has no
handled result (the `KeyError` branch, modelled as `none`), and when the
product id is a catalog key that error branch is unreachable. -/
theorem check_inventory_lookup_unguarded (cat : Catalog) (o : Order) :
    ((∀ e ∈ cat, e.1 ≠ o.product_id) → check_inventory cat o = none) ∧
    ∀ p, lookupProduct o.product_id cat = some p → check_inventory cat o ≠ none := by
  constructor
  · intro h
    have hl : lookupProduct o.product_id cat = none := (lookupProduct_eq_none_iff _ _).mpr h
    simp [check_inventory, hl]
  · intro p hl
    simp only [check_inventory, hl]
    split_ifs <;> simp

/-- Claim C8, witness: a lookup for the absent id `P999` has no handled
result. -/
theorem check_inventory_lookup_unguarded_witness :
    check_inventory PRODUCTS missingProductOrder = none :=
  (check_inventory_lookup_unguarded PRODUCTS missingProductOrder).1 (by decide)

/-- Claim C9: for every value of the random source, `initiate_shipment`
returns the fixed literal prefix `TRK-` followed by exactly 8 uppercase
alphanumeric characters. -/
theorem initiate_shipment_format (n : Nat) :
    ∃ s : List Char, initiate_shipment n = "TRK-" ++ String.mk s ∧ s.length = 8 ∧
      ∀ c ∈ s, ('A' ≤ c ∧ c ≤ 'Z') ∨ ('0' ≤ c ∧ c ≤ '9') := by
  refine ⟨((uuidHexChars n).take 8).map Char.toUpper, rfl, ?_, ?_⟩
  · rw [List.length_map, List.length_take, uuidHexChars, List.length_map, List.length_range]
    decide
  · intro c hc
    rw [List.mem_map] at hc
    obtain ⟨c', hc', rfl⟩ := hc
    have hc'' := List.mem_of_mem_take hc'
    rw [uuidHexChars, List.mem_map] at hc''
    obtain ⟨i, -, rfl⟩ := hc''
    exact hexDigit_toUpper_alnum _ (Nat.mod_lt _ (by decide))

/-- Claim C10: a successful `fulfill_order` leaves the processed set
untouched and rewrites the catalog only at the matched product, which
keeps its name, price, image and description and loses exactly the order
quantity of stock; every entry before and after the matched one is
unchanged. -/
theorem fulfill_order_frame (s : SysState) (o : Order) (s' : SysState) (msg : String)
    (h : fulfill_orderS s o = some (s', msg)) :
    s'.processed = s.processed ∧
    ∃ l1 p l2, s.products = l1 ++ (o.product_id, p) :: l2 ∧
      (∀ e ∈ l1, e.1 ≠ o.product_id) ∧
      s'.products = l1 ++ (o.product_id, { p with stock := p.stock - o.quantity }) :: l2 := by
  unfold fulfill_orderS at h
  split at h
  · simp at h
  · rename_i cat msg' heq
    rw [Option.some.injEq, Prod.mk.injEq] at h
    obtain ⟨p, hl, hcat, -⟩ := fulfill_order_some s.products o cat msg' heq
    obtain ⟨l1, l2, hd1, hd2, hd3⟩ :=
      lookupProduct_updateStock_decomp o.product_id o.quantity s.products p hl
    rw [← h.1]
    exact ⟨rfl, l1, p, l2, hd1, hd2, by rw [hcat]; exact hd3⟩

/-- Claim C10, witness: fulfilling the demo order rewrites only the
`P001` entry and keeps the processed set. -/
theorem fulfill_order_frame_witness :
    ({ products := updateStock "P001" 2 PRODUCTS, processed := [] } : SysState).processed =
      initState.processed ∧
    ∃ l1 p l2, initState.products = l1 ++ (mouseOrder.product_id, p) :: l2 ∧
      (∀ e ∈ l1, e.1 ≠ mouseOrder.product_id) ∧
      ({ products := updateStock "P001" 2 PRODUCTS, processed := [] } : SysState).products =
        l1 ++ (mouseOrder.product_id, { p with stock := p.stock - mouseOrder.quantity }) :: l2 :=
  fulfill_order_frame initState mouseOrder
    { products := updateStock "P001" 2 PRODUCTS, processed := [] }
    "Order packed successfully" (by decide)

end BizTab
